import Mathlib

/-!
Verification of the core logic of the Bautagesbericht app (src/app.py):
time parsing and net-hours computation, numeric coercion, report
validation and persistence, authentication and password hashing, and the
edit/delete access rules.  Python floats are modelled as exact rationals
(ℚ); `round(x, 2)` is modelled as round-half-to-even on the exact value.
Strings are processed as their character lists.
-/

set_option maxRecDepth 4000

/-- Whitespace test used by Python's str.strip(). -/
def pyWS (c : Char) : Bool := c.isWhitespace

/-- Model of Python str.strip() on a character list: drop whitespace from
both ends. -/
def pyStripList (l : List Char) : List Char :=
  ((l.dropWhile pyWS).reverse.dropWhile pyWS).reverse

/-- Model of Python str.strip(). -/
def pyStrip (s : String) : String := String.mk (pyStripList s.data)

/-- Model of Python str.split(sep) for a one-character separator: splits
the list at every occurrence of c; "".split(c) = [""] and separators at
the ends produce empty parts, as in Python. -/
def splitOnChar (c : Char) : List Char → List (List Char)
  | [] => [[]]
  | x :: xs =>
    match splitOnChar c xs with
    | [] => if x = c then [[], []] else [[x]]
    | y :: ys => if x = c then [] :: y :: ys else (x :: y) :: ys

/-- Numeric value of a digit list, most significant first (no validity
check; composed with isDigits below). -/
def natVal (l : List Char) : Nat :=
  l.foldl (fun a c => a * 10 + (c.toNat - 48)) 0

/-- All characters are ASCII decimal digits. -/
def isDigits (l : List Char) : Bool := l.all (fun c => c.isDigit)

/-- Model of the digit-run part of Python int(): a nonempty run of
decimal digits (underscore grouping of Python literals is not modelled;
inputs using it come out as a parse failure, i.e. None). -/
def digitsVal (l : List Char) : Option Nat :=
  if l ≠ [] ∧ isDigits l then some (natVal l) else none

/-- Model of Python int(str): strip whitespace, optional sign, then a
nonempty digit run; anything else raises, modelled as none. -/
def pyInt (l : List Char) : Option Int :=
  match pyStripList l with
  | '+' :: rest => (digitsVal rest).map (fun n => (n : Int))
  | '-' :: rest => (digitsVal rest).map (fun n => -(n : Int))
  | t => (digitsVal t).map (fun n => (n : Int))

/-- Decimal literal body for Python float(): digits, or digits '.' digits
with at least one digit overall ("1.", ".5", "1.5" all valid, "." not). -/
def parseDecimalBody (l : List Char) : Option ℚ :=
  match splitOnChar '.' l with
  | [ip] => if ip ≠ [] ∧ isDigits ip then some ((natVal ip : ℚ)) else none
  | [ip, fp] =>
    if (ip ≠ [] ∨ fp ≠ []) ∧ isDigits ip ∧ isDigits fp then
      some ((natVal ip : ℚ) + (natVal fp : ℚ) / 10 ^ fp.length)
    else none
  | _ => none

/-- Model of Python float(str) restricted to plain decimal notation:
strip, optional sign, decimal body.  Exponent notation and inf/nan are
not modelled and come out as none (a parse failure), which the one
caller treats the same way as any other unparsable input. -/
def pyFloatVal (l : List Char) : Option ℚ :=
  match pyStripList l with
  | '+' :: rest => parseDecimalBody rest
  | '-' :: rest => (parseDecimalBody rest).map (fun q => -q)
  | t => parseDecimalBody t

/-- Model of Python str.replace for one-character arguments. -/
def pyReplace (a b : Char) (l : List Char) : List Char :=
  l.map (fun c => if c = a then b else c)

/-- parse_time_to_minutes (src/app.py:215-223): strip; if empty or no
colon, None; split on ':' and require exactly the two parts h, m (any
other number of parts makes the unpacking raise, caught as None); both
parts must parse as Python ints (no range check); result h*60+m. -/
def parse_time_to_minutes (hhmm : String) : Option Int :=
  let s := pyStripList hhmm.data
  if s.isEmpty || !(s.contains ':') then none
  else
    match splitOnChar ':' s with
    | [h, m] =>
      match pyInt h, pyInt m with
      | some hv, some mv => some (hv * 60 + mv)
      | _, _ => none
    | _ => none

/-- to_float_nonneg (src/app.py:226-234): `(val or "")` then strip, commas
to dots; empty gives 0.0; float() failure gives 0.0; negative values are
clamped to 0.0. -/
def to_float_nonneg (val : Option String) : ℚ :=
  let s := pyReplace ',' '.' (pyStripList (val.getD "").data)
  if s.isEmpty then 0
  else
    match pyFloatVal s with
    | some n => if n < 0 then 0 else n
    | none => 0

/-- Round-half-to-even to an integer, the tie rule of Python's round(). -/
def roundHalfEven (x : ℚ) : Int :=
  let n := ⌊x⌋
  let r := x - (n : ℚ)
  if r < 1 / 2 then n
  else if 1 / 2 < r then n + 1
  else if n % 2 = 0 then n else n + 1

/-- Model of Python round(x, 2) on the exact rational value. -/
def round2 (x : ℚ) : ℚ := (roundHalfEven (x * 100) : ℚ) / 100

/-- calc_netto_stunden (src/app.py:237-250): parse both times (None if
either fails); minute difference, plus 24*60 when negative; hours minus
break, clamped at 0; rounded to 2 decimals.  `pause_stunden or 0.0` is
the identity on the ℚ-typed model. -/
def calc_netto_stunden (von bis : String) (pause_stunden : ℚ) : Option ℚ :=
  match parse_time_to_minutes von, parse_time_to_minutes bis with
  | some mv, some mb =>
    let diff := mb - mv
    let diff2 := if diff < 0 then diff + 24 * 60 else diff
    let netto := (diff2 : ℚ) / 60 - pause_stunden
    let netto2 := if netto < 0 then 0 else netto
    some (round2 netto2)
  | _, _ => none

/-! Helper lemmas about rounding and the clamp at zero. -/

lemma roundHalfEven_nonneg {x : ℚ} (h : 0 ≤ x) : 0 ≤ roundHalfEven x := by
  simp only [roundHalfEven]
  have hn : 0 ≤ ⌊x⌋ := Int.floor_nonneg.mpr h
  split_ifs <;> omega

lemma round2_nonneg {x : ℚ} (h : 0 ≤ x) : 0 ≤ round2 x := by
  unfold round2
  have h2 : (0 : Int) ≤ roundHalfEven (x * 100) :=
    roundHalfEven_nonneg (by positivity)
  have h3 : (0 : ℚ) ≤ (roundHalfEven (x * 100) : ℚ) := by exact_mod_cast h2
  exact div_nonneg h3 (by norm_num)

lemma roundHalfEven_intCast (n : Int) : roundHalfEven ((n : ℚ)) = n := by
  simp only [roundHalfEven, Int.floor_intCast, sub_self]
  norm_num

lemma round2_eq_self (x : ℚ) (n : Int) (h : x * 100 = (n : ℚ)) :
    round2 x = (n : ℚ) / 100 := by
  unfold round2
  rw [h, roundHalfEven_intCast]

lemma clamp_eq_max (x : ℚ) : (if x < 0 then (0 : ℚ) else x) = max 0 x := by
  rcases lt_or_le x 0 with h | h
  · simp [h, max_eq_left h.le]
  · simp [not_lt.mpr h, max_eq_right h]

lemma calc_netto_eval (von bis : String) (p : ℚ) (mv mb : Int)
    (hv : parse_time_to_minutes von = some mv)
    (hb : parse_time_to_minutes bis = some mb) :
    calc_netto_stunden von bis p =
      some (round2 (if ((if mb - mv < 0 then mb - mv + 24 * 60 else mb - mv : Int) : ℚ) / 60 - p < 0
                    then 0
                    else ((if mb - mv < 0 then mb - mv + 24 * 60 else mb - mv : Int) : ℚ) / 60 - p)) := by
  unfold calc_netto_stunden
  simp only [hv, hb]

/-- Claim C1: for time strings that parse as HH:MM and a non-negative
break, calc_netto_stunden returns round(max(0, d/60 - break), 2) where d
is the minute difference, with 24*60 added when negative. -/
theorem calc_netto_stunden_formula (von bis : String) (p : ℚ) (mv mb : Int)
    (hv : parse_time_to_minutes von = some mv)
    (hb : parse_time_to_minutes bis = some mb)
    (hp : 0 ≤ p) :
    calc_netto_stunden von bis p =
      some (round2 (max 0
        (((if mb - mv < 0 then mb - mv + 24 * 60 else mb - mv : Int) : ℚ) / 60 - p))) := by
  rw [calc_netto_eval von bis p mv mb hv hb, clamp_eq_max]

/-- Claim C1 witness: start "08:00", end "16:30", break 0.5 gives 8.0
(the midnight-wrap example "22:00"/"06:00" is checked in the C2 witness). -/
theorem calc_netto_stunden_formula_witness :
    calc_netto_stunden "08:00" "16:30" (1 / 2) = some 8 := by
  rw [calc_netto_stunden_formula "08:00" "16:30" (1 / 2) 480 990
      (by decide) (by decide) (by norm_num)]
  have h1 : ((if (990 : Int) - 480 < 0 then (990 : Int) - 480 + 24 * 60 else 990 - 480 : Int) : ℚ)
      / 60 - 1 / 2 = 8 := by norm_num
  rw [h1, max_eq_right (by norm_num : (0 : ℚ) ≤ 8),
      round2_eq_self 8 800 (by norm_num)]
  norm_num

/-- Claim C2: whenever calc_netto_stunden returns a value it is
non-negative, for every input triple (including out-of-range or negative
parsed hour/minute values and arbitrary break values); a break exceeding
the worked duration yields exactly 0.0. -/
theorem calc_netto_stunden_nonneg :
    (∀ (von bis : String) (p q : ℚ), calc_netto_stunden von bis p = some q → 0 ≤ q)
    ∧ calc_netto_stunden "08:00" "09:00" 5 = some 0 := by
  constructor
  · intro von bis p q h
    rcases hv : parse_time_to_minutes von with _ | mv
    · unfold calc_netto_stunden at h
      rw [hv] at h
      exact absurd h (by simp)
    rcases hb : parse_time_to_minutes bis with _ | mb
    · unfold calc_netto_stunden at h
      rw [hv, hb] at h
      exact absurd h (by simp)
    rw [calc_netto_eval von bis p mv mb hv hb] at h
    simp only [Option.some.injEq] at h
    subst h
    apply round2_nonneg
    rw [clamp_eq_max]
    exact le_max_left _ _
  · rw [calc_netto_eval "08:00" "09:00" 5 480 540 (by decide) (by decide)]
    have h1 : ((if (540 : Int) - 480 < 0 then (540 : Int) - 480 + 24 * 60 else 540 - 480 : Int) : ℚ)
        / 60 - 5 = -4 := by norm_num
    rw [h1]
    norm_num
    rw [round2_eq_self 0 0 (by norm_num)]
    norm_num

/-- Claim C2 witness: the invariant applied at the midnight-wrap example
"22:00" to "06:00" with no break, whose value is 8. -/
theorem calc_netto_stunden_nonneg_witness :
    calc_netto_stunden "22:00" "06:00" 0 = some 8 ∧ (0 : ℚ) ≤ 8 := by
  have hval : calc_netto_stunden "22:00" "06:00" 0 = some 8 := by
    rw [calc_netto_eval "22:00" "06:00" 0 1320 360 (by decide) (by decide)]
    have h1 : ((if (360 : Int) - 1320 < 0 then (360 : Int) - 1320 + 24 * 60 else 360 - 1320 : Int) : ℚ)
        / 60 - 0 = 8 := by norm_num
    rw [h1]
    norm_num
    rw [round2_eq_self 8 800 (by norm_num)]
    norm_num
  exact ⟨hval, calc_netto_stunden_nonneg.1 "22:00" "06:00" 0 8 hval⟩

/-- Claim C3 counterexample: the time "25:99" does NOT yield a null
net-hours value: it is parsed as literal integers (25*60+99 = 1599
minutes, no range check), and calc_netto_stunden returns 18.65 for start
"08:00". -/
theorem parse_range_counterexample :
    calc_netto_stunden "08:00" "25:99" 0 = some (373 / 20) := by
  rw [calc_netto_eval "08:00" "25:99" 0 480 1599 (by decide) (by decide)]
  have h1 : ((if (1599 : Int) - 480 < 0 then (1599 : Int) - 480 + 24 * 60 else 1599 - 480 : Int) : ℚ)
      / 60 - 0 = 373 / 20 := by norm_num
  rw [h1]
  norm_num
  rw [round2_eq_self (373 / 20) 1865 (by norm_num)]
  norm_num

/-- Claim C3 (amended): time parsing splits on a colon and requires both
parts to be integers; a shape failure (missing colon, non-numeric part,
empty input) makes calc_netto_stunden return none rather than raising;
hour and minute values are not range-checked, so "25:99" parses to 1599
minutes (and hence yields a non-null net-hours value). -/
theorem parse_time_failure_behavior :
    (∀ (von bis : String) (p : ℚ),
        parse_time_to_minutes von = none → calc_netto_stunden von bis p = none)
    ∧ (∀ (von bis : String) (p : ℚ),
        parse_time_to_minutes bis = none → calc_netto_stunden von bis p = none)
    ∧ (∀ s : String,
        (pyStripList s.data).contains ':' = false → parse_time_to_minutes s = none)
    ∧ parse_time_to_minutes "abc" = none
    ∧ parse_time_to_minutes "" = none
    ∧ parse_time_to_minutes "25:99" = some 1599 := by
  refine ⟨?_, ?_, ?_, by decide, by decide, by decide⟩
  · intro von bis p h
    unfold calc_netto_stunden
    rw [h]
  · intro von bis p h
    unfold calc_netto_stunden
    rw [h]
    rcases parse_time_to_minutes von with _ | mv <;> rfl
  · intro s h
    unfold parse_time_to_minutes
    simp only [h, Bool.not_false, Bool.or_true]
    rfl

/-- Claim C3 witness: the failure propagation applied to the non-numeric
start time "abc". -/
theorem parse_time_failure_behavior_witness :
    calc_netto_stunden "abc" "09:00" 0 = none :=
  parse_time_failure_behavior.1 "abc" "09:00" 0 (by decide)

/-- Claim C4: the non-negative-float coercion normalizes comma decimal
separators to dots and always returns a value >= 0, with unparsable,
empty, or negative inputs mapped to 0. -/
theorem to_float_nonneg_spec :
    (∀ s : String, 0 ≤ to_float_nonneg (some s))
    ∧ to_float_nonneg (some "3,5") = 7 / 2
    ∧ to_float_nonneg (some "-2") = 0
    ∧ to_float_nonneg (some "") = 0 := by
  refine ⟨?_, ?_, ?_, ?_⟩
  · intro s
    simp only [to_float_nonneg]
    split
    · exact le_refl 0
    · split
      · rw [clamp_eq_max]
        exact le_max_left _ _
      · exact le_refl 0
  · simp +decide [to_float_nonneg, pyReplace, pyStripList, pyWS, pyFloatVal,
      parseDecimalBody, splitOnChar, natVal, isDigits]
    norm_num
  · simp +decide [to_float_nonneg, pyReplace, pyStripList, pyWS, pyFloatVal,
      parseDecimalBody, splitOnChar, natVal, isDigits]
  · simp +decide [to_float_nonneg]

/-- Claim C4 witness: the non-negativity bound applied at "7,25". -/
theorem to_float_nonneg_spec_witness :
    (0 : ℚ) ≤ to_float_nonneg (some "7,25") :=
  to_float_nonneg_spec.1 "7,25"

/-! Users, password hashing and login (src/app.py:157-172, 262-285,
298-332).  werkzeug's generate_password_hash / check_password_hash are
modelled as a salted hash: a PinHash value holds the random salt and a
digest computed by a one-way mixing function of salt and PIN; the only
way login accepts is for the recomputed digest to match the stored one. -/

/-- A stored salted password hash: salt plus digest, never the PIN. -/
structure PinHash where
  salt : String
  digest : Nat
  deriving Repr, DecidableEq

/-- Abstract one-way digest used by the hash model (a computable mixing
fold standing in for werkzeug's scrypt/pbkdf2 digest). -/
def pwDigest (l : List Char) : Nat :=
  l.foldl (fun a c => (a * 131 + c.toNat) % 1000000007) 7

/-- Model of werkzeug.security.generate_password_hash: a fresh salt plus
the digest of salt and PIN.  The PIN itself is not a component of the
stored value. -/
def generate_password_hash (salt pin : String) : PinHash :=
  { salt := salt, digest := pwDigest (salt.data ++ pin.data) }

/-- Model of werkzeug.security.check_password_hash: recompute the digest
from the stored salt and the candidate PIN and compare with the stored
digest. -/
def check_password_hash (h : PinHash) (pin : String) : Bool :=
  h.digest == pwDigest (h.salt.data ++ pin.data)

/-- A user row of the users table. -/
structure User where
  id : Nat
  name : String
  pin_hash : PinHash
  role : String
  deriving Repr, DecidableEq

/-- Trim an optional form value as the routes do: `(x or "").strip()`. -/
def getStr (o : Option String) : String := pyStrip (o.getD "")

/-- Result of the login POST handler. -/
inductive LoginResult where
  | emptyFields (flash : String)
  | invalidCredentials (flash : String)
  | success (user_id : Nat) (name role : String)
  deriving Repr, DecidableEq

/-- login POST (src/app.py:262-285): strip name and PIN; both required;
look the user up by exact name; absent user and failed hash comparison
produce the one identical flash and redirect; success stores the user's
id in the session (identity and role are then read back from the row). -/
def login (db : List User) (nameIn pinIn : Option String) : LoginResult :=
  let name := getStr nameIn
  let pin := getStr pinIn
  if name = "" ∨ pin = "" then .emptyFields "Bitte Name und PIN eingeben."
  else
    match db.find? (fun u => u.name == name) with
    | none => .invalidCredentials "Falscher Name oder PIN."
    | some u =>
      if check_password_hash u.pin_hash pin then .success u.id u.name u.role
      else .invalidCredentials "Falscher Name oder PIN."

/-- Result of the admin user-creation POST handler. -/
inductive AdminUsersResult where
  | error (flash : String) (db : List User)
  | created (db : List User)
  deriving Repr, DecidableEq

/-- admin_users POST (src/app.py:298-332): strip inputs (role defaults
to "worker" when missing or empty); name and PIN are required; duplicate
names are rejected; otherwise a user is inserted whose stored credential
is generate_password_hash of the PIN.  next_id and salt model the DB
serial and werkzeug's random salt. -/
def admin_users (db : List User) (next_id : Nat) (salt : String)
    (new_name new_pin new_role : Option String) : AdminUsersResult :=
  let name := getStr new_name
  let pin := getStr new_pin
  let role := pyStrip (if (new_role.getD "") = "" then "worker" else new_role.getD "")
  if name = "" ∨ pin = "" then .error "Name und PIN sind Pflicht." db
  else if (db.find? (fun u => u.name == name)).isSome then
    .error "Dieser Name existiert bereits." db
  else
    .created (db ++ [{ id := next_id, name := name,
                       pin_hash := generate_password_hash salt pin, role := role }])

/-- Admin bootstrap inside init_db (src/app.py:157-172): read ADMIN_NAME
(default "Admin") and ADMIN_PIN from the environment; only when a
nonempty stripped PIN is present and no admin exists yet, insert an
admin user whose stored credential is generate_password_hash of the
PIN. -/
def init_db_admin (db : List User) (next_id : Nat) (salt : String)
    (admin_name_env admin_pin_env : Option String) : List User :=
  let admin_name := admin_name_env.getD "Admin"
  let admin_pin := pyStrip (admin_pin_env.getD "")
  if admin_pin = "" then db
  else if (db.find? (fun u => u.role == "admin")).isSome then db
  else db ++ [{ id := next_id, name := admin_name,
                pin_hash := generate_password_hash salt admin_pin, role := "admin" }]

/-- Claim C6: once a login attempt reaches authentication (nonempty
stripped name and PIN), an unknown user and a failed hash comparison
produce the identical generic invalidCredentials outcome, so the
caller-facing result does not distinguish the two; on success the result
carries the user's identity and role. -/
theorem login_generic_failure (db : List User) (nameIn pinIn : Option String)
    (hn : getStr nameIn ≠ "") (hp : getStr pinIn ≠ "") :
    (db.find? (fun u => u.name == getStr nameIn) = none →
      login db nameIn pinIn = .invalidCredentials "Falscher Name oder PIN.")
    ∧ (∀ u, db.find? (fun u => u.name == getStr nameIn) = some u →
        check_password_hash u.pin_hash (getStr pinIn) = false →
        login db nameIn pinIn = .invalidCredentials "Falscher Name oder PIN.")
    ∧ (∀ u, db.find? (fun u => u.name == getStr nameIn) = some u →
        check_password_hash u.pin_hash (getStr pinIn) = true →
        login db nameIn pinIn = .success u.id u.name u.role) := by
  have hcond : ¬(getStr nameIn = "" ∨ getStr pinIn = "") := by
    rintro (h | h) <;> [exact hn h; exact hp h]
  refine ⟨?_, ?_, ?_⟩
  · intro hfind
    simp only [login, if_neg hcond, hfind]
  · intro u hfind hchk
    simp only [login, if_neg hcond, hfind, hchk]
    rfl
  · intro u hfind hchk
    simp only [login, if_neg hcond, hfind, hchk]
    rfl

/-- Claim C6 witness: a database with one user; the unknown-user outcome
at name "Bob" equals the generic failure. -/
theorem login_generic_failure_witness :
    login [{ id := 1, name := "Alice",
             pin_hash := generate_password_hash "s1" "1234", role := "worker" }]
        (some "Bob") (some "9999")
      = .invalidCredentials "Falscher Name oder PIN." :=
  (login_generic_failure _ (some "Bob") (some "9999")
      (by decide) (by decide)).1 (by decide)

/-- Claim C9: PINs are never stored or compared in plain text.  Every
user added by the admin-creation handler or the admin bootstrap carries
pin_hash = generate_password_hash(salt, pin), a salted hash from which
the model stores only salt and digest; and the login decision for a
found user is exactly the outcome of check_password_hash against that
stored hash. -/
theorem pin_hash_only :
    (∀ (db : List User) (nid : Nat) (salt : String) (nn np nr : Option String)
        (db2 : List User),
        admin_users db nid salt nn np nr = .created db2 →
        ∀ u ∈ db2, u ∈ db ∨ u.pin_hash = generate_password_hash salt (getStr np))
    ∧ (∀ (db : List User) (nid : Nat) (salt : String) (an ap : Option String),
        ∀ u ∈ init_db_admin db nid salt an ap,
        u ∈ db ∨ u.pin_hash = generate_password_hash salt (pyStrip (ap.getD "")))
    ∧ (∀ (db : List User) (n p : Option String) (u : User),
        db.find? (fun v => v.name == getStr n) = some u →
        getStr n ≠ "" → getStr p ≠ "" →
        ((∃ i nm r, login db n p = .success i nm r)
          ↔ check_password_hash u.pin_hash (getStr p) = true)) := by
  refine ⟨?_, ?_, ?_⟩
  · intro db nid salt nn np nr db2 h u hu
    simp only [admin_users] at h
    by_cases h1 : getStr nn = "" ∨ getStr np = ""
    · rw [if_pos h1] at h
      exact absurd h (by simp)
    rw [if_neg h1] at h
    by_cases h2 : (db.find? (fun u => u.name == getStr nn)).isSome = true
    · rw [if_pos h2] at h
      exact absurd h (by simp)
    rw [if_neg h2] at h
    simp only [AdminUsersResult.created.injEq] at h
    subst h
    rcases List.mem_append.mp hu with h3 | h3
    · exact Or.inl h3
    · right
      simp only [List.mem_singleton] at h3
      subst h3
      rfl
  · intro db nid salt an ap u hu
    simp only [init_db_admin] at hu
    split_ifs at hu with h1 h2
    · exact Or.inl hu
    · exact Or.inl hu
    · rcases List.mem_append.mp hu with h3 | h3
      · exact Or.inl h3
      · right
        simp only [List.mem_singleton] at h3
        subst h3
        rfl
  · intro db n p u hfind hn hp
    have hcond : ¬(getStr n = "" ∨ getStr p = "") := by
      rintro (h | h)
      · exact hn h
      · exact hp h
    constructor
    · rintro ⟨i, nm, r, hs⟩
      cases hx : check_password_hash u.pin_hash (getStr p)
      · simp only [login, if_neg hcond, hfind, hx] at hs
        exact absurd hs (by simp)
      · rfl
    · intro hchk
      refine ⟨u.id, u.name, u.role, ?_⟩
      simp only [login, if_neg hcond, hfind, hchk]
      rfl

/-- Claim C9 witness: creating user "Eva" with PIN "1111" in an empty
table stores generate_password_hash of the PIN. -/
theorem pin_hash_only_witness :
    ({ id := 1, name := "Eva", pin_hash := generate_password_hash "s" "1111",
       role := "worker" } : User) ∈ ([] : List User)
    ∨ ({ id := 1, name := "Eva", pin_hash := generate_password_hash "s" "1111",
         role := "worker" } : User).pin_hash
        = generate_password_hash "s" (getStr (some "1111")) :=
  pin_hash_only.1 [] 1 "s" (some "Eva") (some "1111") none
    [{ id := 1, name := "Eva", pin_hash := generate_password_hash "s" "1111",
       role := "worker" }]
    (by decide) _ (by decide)

/-! Report form handling (src/app.py:338-424, 474-589).  The SQLite
branch is modelled (the two SQL branches store the same field set here;
the Postgres INSERT additionally references lkw_fahrer variables that
the index handler never defines).  The submitted form is a record of
optional strings, as request.form.get returns None for a missing key. -/

/-- The raw submitted form fields read by the index POST handler. -/
structure ReportForm where
  datum : Option String
  arbeitszeit_von : Option String
  arbeitszeit_bis : Option String
  pause_stunden : Option String
  wetter : Option String
  baustelle : Option String
  team : Option String
  polier_name : Option String
  polier_stunden : Option String
  vorarbeiter_name : Option String
  vorarbeiter_stunden : Option String
  facharbeiter_name : Option String
  facharbeiter_stunden : Option String
  elektriker_name : Option String
  elektriker_stunden : Option String
  helfer_name : Option String
  helfer_stunden : Option String
  arbeit : Option String
  material : Option String
  bemerkung : Option String
  deriving Repr, DecidableEq

/-- The mutable columns of a reports row, after normalization. -/
structure ReportFields where
  datum : String
  arbeitszeit_von : String
  arbeitszeit_bis : String
  pause_stunden : ℚ
  netto_stunden : Option ℚ
  wetter : String
  baustelle : String
  team : String
  polier_name : String
  polier_stunden : ℚ
  vorarbeiter_name : String
  vorarbeiter_stunden : ℚ
  facharbeiter_name : String
  facharbeiter_stunden : ℚ
  elektriker_name : String
  elektriker_stunden : ℚ
  helfer_name : String
  helfer_stunden : ℚ
  arbeit : String
  material : String
  bemerkung : String
  deriving Repr, DecidableEq

/-- The normalization performed by the index and edit POST handlers
(src/app.py:345-368, 489-514): trim every text field, coerce every hours
field with to_float_nonneg, and compute netto_stunden from the trimmed
times and the coerced break. -/
def buildFields (f : ReportForm) : ReportFields :=
  let von := getStr f.arbeitszeit_von
  let bis := getStr f.arbeitszeit_bis
  let pause := to_float_nonneg f.pause_stunden
  { datum := getStr f.datum
    arbeitszeit_von := von
    arbeitszeit_bis := bis
    pause_stunden := pause
    netto_stunden := calc_netto_stunden von bis pause
    wetter := getStr f.wetter
    baustelle := getStr f.baustelle
    team := getStr f.team
    polier_name := getStr f.polier_name
    polier_stunden := to_float_nonneg f.polier_stunden
    vorarbeiter_name := getStr f.vorarbeiter_name
    vorarbeiter_stunden := to_float_nonneg f.vorarbeiter_stunden
    facharbeiter_name := getStr f.facharbeiter_name
    facharbeiter_stunden := to_float_nonneg f.facharbeiter_stunden
    elektriker_name := getStr f.elektriker_name
    elektriker_stunden := to_float_nonneg f.elektriker_stunden
    helfer_name := getStr f.helfer_name
    helfer_stunden := to_float_nonneg f.helfer_stunden
    arbeit := getStr f.arbeit
    material := getStr f.material
    bemerkung := getStr f.bemerkung }

/-- A persisted reports row: the mutable fields plus the columns set at
insert time (id, created_at as an abstract timestamp, created_by). -/
structure StoredReport extends ReportFields where
  id : Nat
  created_at : Nat
  created_by : Nat
  deriving Repr, DecidableEq

/-- Outcome of the index POST handler: the flash-and-redirect re-prompt
(database unchanged) or a save; both carry the resulting table. -/
inductive IndexPostResult where
  | reprompt (flash : String) (db : List StoredReport)
  | saved (db : List StoredReport)
  deriving Repr, DecidableEq

/-- index POST (src/app.py:344-422): normalize all fields, require a
nonempty datum and baustelle (otherwise flash and redirect without
touching the table), then insert one row carrying the session user's id
and the insert-time defaults (next_id, now model the DB serial and
timestamp defaults). -/
def index (me_id now next_id : Nat) (db : List StoredReport) (f : ReportForm) :
    IndexPostResult :=
  let r := buildFields f
  if r.datum = "" ∨ r.baustelle = "" then
    .reprompt "Bitte Datum und Baustelle ausfüllen." db
  else
    .saved (db ++ [{ toReportFields := r, id := next_id,
                     created_at := now, created_by := me_id }])

/-- A form carrying only the two required fields, every other field
absent. -/
def blankForm : ReportForm :=
  { datum := some "01.01.2024", arbeitszeit_von := none, arbeitszeit_bis := none,
    pause_stunden := none, wetter := none, baustelle := some "Halle 3",
    team := none, polier_name := none, polier_stunden := none,
    vorarbeiter_name := none, vorarbeiter_stunden := none,
    facharbeiter_name := none, facharbeiter_stunden := none,
    elektriker_name := none, elektriker_stunden := none,
    helfer_name := none, helfer_stunden := none,
    arbeit := none, material := none, bemerkung := none }

/-- Claim C5: a submission whose trimmed datum or baustelle is empty
produces exactly the missing-required-field re-prompt naming the two
required fields, with the table unchanged (no partial record); with both
nonempty the report is persisted, even when every other field is
blank. -/
theorem index_requires_datum_baustelle
    (me_id now next_id : Nat) (db : List StoredReport) (f : ReportForm) :
    (index me_id now next_id db f
        = .reprompt "Bitte Datum und Baustelle ausfüllen." db
      ↔ (getStr f.datum = "" ∨ getStr f.baustelle = ""))
    ∧ ((getStr f.datum ≠ "" ∧ getStr f.baustelle ≠ "") →
        index me_id now next_id db f
          = .saved (db ++ [{ toReportFields := buildFields f, id := next_id,
                             created_at := now, created_by := me_id }])) := by
  by_cases hc : getStr f.datum = "" ∨ getStr f.baustelle = ""
  · have hidx : index me_id now next_id db f
        = .reprompt "Bitte Datum und Baustelle ausfüllen." db := by
      simp only [index]
      exact if_pos hc
    refine ⟨⟨fun _ => hc, fun _ => hidx⟩, fun hn => absurd hc ?_⟩
    rcases hn with ⟨hd, hb⟩
    rintro (h | h)
    · exact hd h
    · exact hb h
  · have hidx : index me_id now next_id db f
        = .saved (db ++ [{ toReportFields := buildFields f, id := next_id,
                           created_at := now, created_by := me_id }]) := by
      simp only [index]
      exact if_neg hc
    refine ⟨⟨fun h => ?_, fun h => absurd h hc⟩, fun _ => hidx⟩
    rw [hidx] at h
    exact absurd h (by simp)

/-- Claim C5 witness: a form with only datum and baustelle set is
accepted and appended to an empty table. -/
theorem index_requires_datum_baustelle_witness :
    index 1 0 1 [] blankForm
      = .saved [{ toReportFields := buildFields blankForm, id := 1,
                  created_at := 0, created_by := 1 }] :=
  (index_requires_datum_baustelle 1 0 1 [] blankForm).2 ⟨by decide, by decide⟩

/-- Outcome of the edit POST handler. -/
inductive EditResult where
  | redirectLogin (db : List StoredReport)
  | notFound (db : List StoredReport)
  | reprompt (flash : String) (db : List StoredReport)
  | updated (db : List StoredReport)
  deriving Repr, DecidableEq

/-- The reports table after an edit outcome. -/
def EditResult.table : EditResult → List StoredReport
  | .redirectLogin d => d
  | .notFound d => d
  | .reprompt _ d => d
  | .updated d => d

/-- edit_report POST core (src/app.py:474-576, SQLite branch; the handler
also reads lkw_fahrer fields but neither UPDATE statement writes them):
fetch the row by id (flash-and-redirect when absent), normalize the form,
require datum and baustelle, then UPDATE only the mutable columns of the
matching row — id, created_at and created_by are not in the SET list. -/
def edit_report (db : List StoredReport) (report_id : Nat) (f : ReportForm) :
    EditResult :=
  match db.find? (fun r => r.id == report_id) with
  | none => .notFound db
  | some _ =>
    let nf := buildFields f
    if nf.datum = "" ∨ nf.baustelle = "" then
      .reprompt "Bitte Datum und Baustelle ausfüllen." db
    else
      .updated (db.map (fun r =>
        if r.id == report_id then
          { toReportFields := nf, id := r.id,
            created_at := r.created_at, created_by := r.created_by }
        else r))

/-- The edit route: login_required only; the session user is never
consulted by the handler body (the source's ownership check is commented
out), so any logged-in user edits any report. -/
def edit_report_route (me : Option User) (db : List StoredReport)
    (report_id : Nat) (f : ReportForm) : EditResult :=
  match me with
  | none => .redirectLogin db
  | some _ => edit_report db report_id f

/-- Outcome of the delete POST handler. -/
inductive DeleteResult where
  | redirectLogin (db : List StoredReport)
  | denied (flash : String) (db : List StoredReport)
  | deleted (db : List StoredReport)
  deriving Repr, DecidableEq

/-- delete_report (src/app.py:579-589) with its login_required and
admin_required decorators (src/app.py:192-209): only a logged-in admin
reaches the DELETE statement; any other logged-in user is flashed
"Kein Zugriff" and redirected with the table untouched. -/
def delete_report (me : Option User) (db : List StoredReport)
    (report_id : Nat) : DeleteResult :=
  match me with
  | none => .redirectLogin db
  | some u =>
    if u.role == "admin" then
      .deleted (db.filter (fun r => !(r.id == report_id)))
    else
      .denied "Kein Zugriff (Admin benötigt)." db

/-- A sample persisted report used by concrete instances below. -/
def sampleReport : StoredReport :=
  { toReportFields := buildFields blankForm, id := 7, created_at := 5,
    created_by := 2 }

/-- Claim C8: for every table, report id and update form, the edit
operation leaves every row's id, created_by and created_at unchanged:
the UPDATE writes only the mutable columns. -/
theorem edit_preserves_created_meta
    (db : List StoredReport) (report_id : Nat) (f : ReportForm) :
    (edit_report db report_id f).table.map
        (fun r => (r.id, r.created_by, r.created_at))
      = db.map (fun r => (r.id, r.created_by, r.created_at)) := by
  unfold edit_report
  cases db.find? (fun r => r.id == report_id) with
  | none => rfl
  | some r0 =>
    dsimp only
    split
    · rfl
    · simp only [EditResult.table, List.map_map]
      apply List.map_congr_left
      intro r _
      simp only [Function.comp_apply]
      by_cases h : (r.id == report_id) = true
      · rw [if_pos h]
      · rw [if_neg h]

/-- Claim C8 witness: the invariance at a concrete one-row table. -/
theorem edit_preserves_created_meta_witness :
    (edit_report [sampleReport] 7 blankForm).table.map
        (fun r => (r.id, r.created_by, r.created_at))
      = [sampleReport].map (fun r => (r.id, r.created_by, r.created_at)) :=
  edit_preserves_created_meta [sampleReport] 7 blankForm

/-- Claim C10: the edit route's outcome is the same for every logged-in
user (no ownership or role check); when the report exists and the form
is valid, the edit is performed for any user; deletion removes the row
exactly when the requester's role is admin, and a non-admin delete
request leaves the table unchanged. -/
theorem edit_any_user_delete_admin_only :
    (∀ (u1 u2 : User) (db : List StoredReport) (rid : Nat) (f : ReportForm),
        edit_report_route (some u1) db rid f = edit_report_route (some u2) db rid f)
    ∧ (∀ (u : User) (db : List StoredReport) (rid : Nat) (f : ReportForm)
          (r0 : StoredReport),
        db.find? (fun r => r.id == rid) = some r0 →
        getStr f.datum ≠ "" → getStr f.baustelle ≠ "" →
        edit_report_route (some u) db rid f
          = .updated (db.map (fun r =>
              if r.id == rid then
                { toReportFields := buildFields f, id := r.id,
                  created_at := r.created_at, created_by := r.created_by }
              else r)))
    ∧ (∀ (u : User) (db : List StoredReport) (rid : Nat),
        u.role = "admin" →
        delete_report (some u) db rid
          = .deleted (db.filter (fun r => !(r.id == rid))))
    ∧ (∀ (u : User) (db : List StoredReport) (rid : Nat),
        u.role ≠ "admin" →
        delete_report (some u) db rid
          = .denied "Kein Zugriff (Admin benötigt)." db) := by
  refine ⟨fun u1 u2 db rid f => rfl, ?_, ?_, ?_⟩
  · intro u db rid f r0 hfind hd hb
    have hcond : ¬((buildFields f).datum = "" ∨ (buildFields f).baustelle = "") := by
      rintro (h | h)
      · exact hd h
      · exact hb h
    simp only [edit_report_route, edit_report, hfind]
    exact if_neg hcond
  · intro u db rid h
    have hbeq : (u.role == "admin") = true := beq_iff_eq.mpr h
    simp only [delete_report, hbeq]
    rfl
  · intro u db rid h
    have hbeq : (u.role == "admin") = false := beq_eq_false_iff_ne.mpr h
    simp only [delete_report, hbeq]
    rfl

/-- Claim C10 witness: an admin delete removes the only row, and the
same edit by two different workers gives identical results. -/
theorem edit_any_user_delete_admin_only_witness :
    delete_report
        (some { id := 1, name := "Chef",
                pin_hash := generate_password_hash "s" "0000", role := "admin" })
        [sampleReport] 7
      = .deleted ([sampleReport].filter (fun r => !(r.id == 7))) :=
  edit_any_user_delete_admin_only.2.2.1
    { id := 1, name := "Chef",
      pin_hash := generate_password_hash "s" "0000", role := "admin" }
    [sampleReport] 7 rfl

/-! Idempotence of the normalization (claim C7). -/

lemma dropWhile_eq_cons_false {p : Char → Bool} :
    ∀ {l : List Char} {a : Char} {t : List Char},
      l.dropWhile p = a :: t → p a = false := by
  intro l
  induction l with
  | nil =>
    intro a t h
    exact absurd h (by simp)
  | cons x xs ih =>
    intro a t h
    by_cases hx : p x
    · rw [List.dropWhile_cons_of_pos hx] at h
      exact ih h
    · rw [List.dropWhile_cons_of_neg hx] at h
      cases h
      simpa using hx

lemma dropWhile_dropWhile (p : Char → Bool) (l : List Char) :
    (l.dropWhile p).dropWhile p = l.dropWhile p := by
  induction l with
  | nil => rfl
  | cons x xs ih =>
    by_cases hx : p x
    · rw [List.dropWhile_cons_of_pos hx]
      exact ih
    · rw [List.dropWhile_cons_of_neg hx, List.dropWhile_cons_of_neg hx]

lemma pyStripList_idem (l : List Char) :
    pyStripList (pyStripList l) = pyStripList l := by
  unfold pyStripList
  have hsplit : l.dropWhile pyWS
      = ((l.dropWhile pyWS).reverse.dropWhile pyWS).reverse
        ++ ((l.dropWhile pyWS).reverse.takeWhile pyWS).reverse := by
    have h := List.takeWhile_append_dropWhile (p := pyWS)
      (l := (l.dropWhile pyWS).reverse)
    calc l.dropWhile pyWS
        = (l.dropWhile pyWS).reverse.reverse := (List.reverse_reverse _).symm
      _ = ((l.dropWhile pyWS).reverse.takeWhile pyWS
            ++ (l.dropWhile pyWS).reverse.dropWhile pyWS).reverse := by rw [h]
      _ = _ := by rw [List.reverse_append]
  have h1 : (((l.dropWhile pyWS).reverse.dropWhile pyWS).reverse).dropWhile pyWS
      = ((l.dropWhile pyWS).reverse.dropWhile pyWS).reverse := by
    cases hDr : ((l.dropWhile pyWS).reverse.dropWhile pyWS).reverse with
    | nil => rfl
    | cons b bt =>
      have hAcons : l.dropWhile pyWS
          = b :: (bt ++ ((l.dropWhile pyWS).reverse.takeWhile pyWS).reverse) := by
        conv_lhs => rw [hsplit]
        rw [hDr]
        rfl
      have hb : pyWS b = false := dropWhile_eq_cons_false hAcons
      exact List.dropWhile_cons_of_neg (by simp [hb])
  rw [h1, List.reverse_reverse, dropWhile_dropWhile]

lemma pyStrip_idem (s : String) : pyStrip (pyStrip s) = pyStrip s := by
  unfold pyStrip
  rw [show (String.mk (pyStripList s.data)).data = pyStripList s.data from rfl,
      pyStripList_idem]

lemma getStr_getStr (o : Option String) : getStr (some (getStr o)) = getStr o := by
  unfold getStr
  rw [Option.getD_some]
  exact pyStrip_idem _

/-- Claim C7: re-running validation on an already-normalized record —
a re-submission whose text fields are exactly the normalized record's
(trimmed) text fields and whose hours fields already coerce to the
record's hours values — yields the same normalized record, including the
same computed net-hours value. -/
theorem validation_idempotent (f g : ReportForm)
    (h1 : g.datum = some ((buildFields f).datum))
    (h2 : g.arbeitszeit_von = some ((buildFields f).arbeitszeit_von))
    (h3 : g.arbeitszeit_bis = some ((buildFields f).arbeitszeit_bis))
    (h4 : to_float_nonneg g.pause_stunden = (buildFields f).pause_stunden)
    (h5 : g.wetter = some ((buildFields f).wetter))
    (h6 : g.baustelle = some ((buildFields f).baustelle))
    (h7 : g.team = some ((buildFields f).team))
    (h8 : g.polier_name = some ((buildFields f).polier_name))
    (h9 : to_float_nonneg g.polier_stunden = (buildFields f).polier_stunden)
    (h10 : g.vorarbeiter_name = some ((buildFields f).vorarbeiter_name))
    (h11 : to_float_nonneg g.vorarbeiter_stunden = (buildFields f).vorarbeiter_stunden)
    (h12 : g.facharbeiter_name = some ((buildFields f).facharbeiter_name))
    (h13 : to_float_nonneg g.facharbeiter_stunden = (buildFields f).facharbeiter_stunden)
    (h14 : g.elektriker_name = some ((buildFields f).elektriker_name))
    (h15 : to_float_nonneg g.elektriker_stunden = (buildFields f).elektriker_stunden)
    (h16 : g.helfer_name = some ((buildFields f).helfer_name))
    (h17 : to_float_nonneg g.helfer_stunden = (buildFields f).helfer_stunden)
    (h18 : g.arbeit = some ((buildFields f).arbeit))
    (h19 : g.material = some ((buildFields f).material))
    (h20 : g.bemerkung = some ((buildFields f).bemerkung)) :
    buildFields g = buildFields f := by
  unfold buildFields
  simp only [h1, h2, h3, h4, h5, h6, h7, h8, h9, h10, h11, h12, h13, h14,
    h15, h16, h17, h18, h19, h20, buildFields, getStr_getStr]

/-- A sample submission with untrimmed text and a comma decimal. -/
def sampleForm : ReportForm :=
  { datum := some " 12.03.2024 ", arbeitszeit_von := some "08:00",
    arbeitszeit_bis := some "16:30", pause_stunden := some " 0,5 ",
    wetter := some "sonnig", baustelle := some " Halle 3 ", team := some "A",
    polier_name := some "Meier", polier_stunden := some "8",
    vorarbeiter_name := none, vorarbeiter_stunden := none,
    facharbeiter_name := none, facharbeiter_stunden := none,
    elektriker_name := none, elektriker_stunden := none,
    helfer_name := none, helfer_stunden := none,
    arbeit := some "Schalung", material := some "", bemerkung := none }

/-- The re-submission of sampleForm's normalized record: trimmed text
fields taken from the record, hours fields that coerce to the record's
values. -/
def renderedForm : ReportForm :=
  { datum := some ((buildFields sampleForm).datum),
    arbeitszeit_von := some ((buildFields sampleForm).arbeitszeit_von),
    arbeitszeit_bis := some ((buildFields sampleForm).arbeitszeit_bis),
    pause_stunden := sampleForm.pause_stunden,
    wetter := some ((buildFields sampleForm).wetter),
    baustelle := some ((buildFields sampleForm).baustelle),
    team := some ((buildFields sampleForm).team),
    polier_name := some ((buildFields sampleForm).polier_name),
    polier_stunden := sampleForm.polier_stunden,
    vorarbeiter_name := some ((buildFields sampleForm).vorarbeiter_name),
    vorarbeiter_stunden := sampleForm.vorarbeiter_stunden,
    facharbeiter_name := some ((buildFields sampleForm).facharbeiter_name),
    facharbeiter_stunden := sampleForm.facharbeiter_stunden,
    elektriker_name := some ((buildFields sampleForm).elektriker_name),
    elektriker_stunden := sampleForm.elektriker_stunden,
    helfer_name := some ((buildFields sampleForm).helfer_name),
    helfer_stunden := sampleForm.helfer_stunden,
    arbeit := some ((buildFields sampleForm).arbeit),
    material := some ((buildFields sampleForm).material),
    bemerkung := some ((buildFields sampleForm).bemerkung) }

/-- Claim C7 witness: re-validating sampleForm's normalized record
reproduces it exactly. -/
theorem validation_idempotent_witness :
    buildFields renderedForm = buildFields sampleForm :=
  validation_idempotent sampleForm renderedForm rfl rfl rfl rfl rfl rfl rfl
    rfl rfl rfl rfl rfl rfl rfl rfl rfl rfl rfl rfl rfl
